import Mathlib

/-!
Shallow embedding of `src/marathonspawner/marathonspawner.py` (class
`MarathonSpawner`), the launch / poll / discover / teardown controller for a
single user workload on a Marathon orchestrator.

Modelling conventions:
* The orchestrator is an oracle supplied to each operation: the result of each
  `marathon.get_app` call made by the polling loop is `queries i` for loop
  index `i`, the result of the `get_app(embed_tasks=True)` call made by
  `get_ip_and_port` is `discover`, and `socket.gethostbyname` is a function
  `ghbn : String → Option String` (`none` models a lookup failure).
* Python `return None` / `return ""` and escaping exceptions are represented
  by explicit sum types (`Option String`, `Except`, `StartOutcome`).
* Machine-visible effects of `start` (facade calls made, poll iterations, one
  second sleeps, the write to `self.user.server`) are recorded in the
  `StartResult` structure so the theorems can speak about them.
* Memory arithmetic is modelled over `Rat`: the Python division
  `self.mem_limit / 1024.0 / 1024.0` divides an integral byte count by the
  power of two 2^20, which is exact.
-/

namespace Marathonspawner

/-- A running task instance as reported by the orchestrator: a host identifier
and the list of bound ports (`app.tasks[k].host`, `app.tasks[k].ports`). -/
structure MTask where
  host : String
  ports : List Nat
deriving DecidableEq

/-- Orchestrator snapshot of a named app: the healthy-task count
(`app.tasks_healthy`) and, when fetched with `embed_tasks=True`, the embedded
task list (`app.tasks`). -/
structure Snapshot where
  tasks_healthy : Nat
  tasks : List MTask
deriving DecidableEq

/-- The ways a `marathon.get_app` query can fail (spec taxonomy for the facade
query operation). -/
inductive QueryError
  | workloadNotFound
  | orchestratorUnreachable
deriving DecidableEq

/-- Classification of an exception raised by `marathon.create_app`. -/
inductive SubmitError
  | orchestratorRejected
  | orchestratorUnreachable
  | unclassified
deriving DecidableEq

/-- Result of the `marathon.create_app` call in `start`: a truthy app object,
the literal `False` (the falsy acceptance signal checked by `if app is False`),
or a raised exception (caught by the bare `except:`). -/
inductive SubmitOutcome
  | accepted
  | isFalse
  | exc (e : SubmitError)
deriving DecidableEq

/-- Failure of `get_ip_and_port`.  The first four constructors are the
exceptions the source code can actually raise; `ambiguousTaskCount` and
`hostResolutionFailed` are the typed errors named by the spec for the Address
Resolver, included in the same type so that the spec's claim about them can be
stated and compared with what the code produces (the code never produces
them). -/
inductive ResolveFailure
  | assertionError
  | gaierror
  | indexError
  | queryExc (e : QueryError)
  | ambiguousTaskCount
  | hostResolutionFailed
deriving DecidableEq

/-- A call made against the Marathon client facade, keyed by the app name
passed to it. -/
inductive FacadeCall
  | createApp (id : String)
  | getApp (id : String)
  | deleteApp (id : String)
deriving DecidableEq

/-- The app name a facade call was keyed by. -/
def callName : FacadeCall → String
  | FacadeCall.createApp i => i
  | FacadeCall.getApp i => i
  | FacadeCall.deleteApp i => i

/-- The caller-shared server record (`self.user.server`): the two fields the
spawner writes. -/
structure Server where
  ip : String
  port : Nat
deriving DecidableEq

/-- What the Python `start` coroutine hands back to its caller: the
`(ip, port)` tuple, the value `None`, or an exception escaping `start`
(only `get_ip_and_port` can raise inside the loop). -/
inductive StartOutcome
  | ready (ip : String) (port : Nat)
  | pyNone
  | raised (e : ResolveFailure)
deriving DecidableEq

/-- Observable result of one `start` run: outcome, number of poll-loop
iterations executed, number of one-second sleeps performed, the facade calls
made (in order), and the final state of `self.user.server`. -/
structure StartResult where
  outcome : StartOutcome
  polls : Nat
  sleeps : Nat
  calls : List FacadeCall
  server : Server
deriving DecidableEq

/-- A placement constraint as configured (`marathon_constraints` entries),
a field / operator / optional value triple. -/
structure Constraint where
  field : String
  op : String
  value : Option String
deriving DecidableEq

/-- Model of `MarathonConstraint.from_json` on an already-structured triple:
the identity. -/
def constraint_from_json (c : Constraint) : Constraint := c

/-- Embedding of `MarathonSpawner.container_name` (lines 73-75):
`'/%s/%s' % (self.app_prefix, self.user.name)`. -/
def containerName (pre user : String) : String :=
  "/" ++ pre ++ "/" ++ user

/-- Embedding of `MarathonSpawner.get_constraints` (lines 117-120).  The
Python function appends `MarathonConstraint.from_json(c)` for each configured
constraint to a local list but has no `return` statement, so it returns
`None`. -/
def get_constraints (marathon_constraints : List Constraint) : Option (List Constraint) :=
  let _constraints := marathon_constraints.map constraint_from_json
  none

/-- The list `get_constraints` builds internally (and, per the spec, was meant
to return). -/
def built_constraints (marathon_constraints : List Constraint) : List Constraint :=
  marathon_constraints.map constraint_from_json

/-- Embedding of `mem_request = self.mem_limit / 1024.0 / 1024.0`
(line 171). -/
def mem_request (mem_limit : Rat) : Rat :=
  mem_limit / 1024 / 1024

/-- The fields of the `MarathonApp` request relevant to the claims. -/
structure AppDescriptor where
  id : String
  cpus : Rat
  mem : Rat
  constraints : Option (List Constraint)
  instances : Nat
deriving DecidableEq

/-- Embedding of the `MarathonApp` assembly in `start` (lines 172-181). -/
def build_app (name : String) (cpu_limit mem_limit : Rat)
    (marathon_constraints : List Constraint) : AppDescriptor :=
  { id := name
    cpus := cpu_limit
    mem := mem_request mem_limit
    constraints := get_constraints marathon_constraints
    instances := 1 }

/-- Embedding of `MarathonSpawner.poll` (lines 205-214): `get_app` failing
with any exception yields `""`; otherwise `None` exactly when
`app.tasks_healthy == 1`, else `""`. -/
def poll (q : Except QueryError Snapshot) : Option String :=
  match q with
  | Except.error _ => some ""
  | Except.ok app => if app.tasks_healthy = 1 then none else some ""

/-- Embedding of `MarathonSpawner.get_ip_and_port` (lines 122-127): the
`get_app(embed_tasks=True)` result is `q`; a raised query error propagates;
`assert len(app.tasks) == 1` raises `AssertionError` otherwise; then
`socket.gethostbyname(app.tasks[0].host)` (raising `gaierror` on lookup
failure) and `app.tasks[0].ports[0]` (raising `IndexError` on an empty port
list). -/
def get_ip_and_port (q : Except QueryError Snapshot) (ghbn : String → Option String) :
    Except ResolveFailure (String × Nat) :=
  match q with
  | Except.error e => Except.error (ResolveFailure.queryExc e)
  | Except.ok app =>
    match app.tasks with
    | [t] =>
      match ghbn t.host with
      | none => Except.error ResolveFailure.gaierror
      | some ip =>
        match t.ports with
        | [] => Except.error ResolveFailure.indexError
        | p :: _ => Except.ok (ip, p)
    | _ => Except.error ResolveFailure.assertionError

/-- True when a poll-loop query raised (`WorkloadNotFound` or
`OrchestratorUnreachable`). -/
def isErr (q : Except QueryError Snapshot) : Bool :=
  match q with
  | Except.error _ => true
  | Except.ok _ => false

/-- True when a poll-loop query does not observe a healthy workload: it either
raised, or returned a snapshot whose healthy-task count is not 1. -/
def isStillStarting (q : Except QueryError Snapshot) : Bool :=
  match q with
  | Except.error _ => true
  | Except.ok app => app.tasks_healthy != 1

/-- Embedding of the polling loop of `MarathonSpawner.start` (lines 190-198):
`for i in range(start_timeout)` with `running = yield self.poll()`; on
`running is None` call `get_ip_and_port`, write `self.user.server.ip/.port`
and return the pair; otherwise `time.sleep(1)` and continue; falling off the
loop returns `None`.  `fuel` is the number of remaining iterations and `i`
the current loop index. -/
def startLoop (name : String) (queries : Nat → Except QueryError Snapshot)
    (discover : Except QueryError Snapshot) (ghbn : String → Option String)
    (server0 : Server) : Nat → Nat → StartResult
  | 0, _i => ⟨StartOutcome.pyNone, 0, 0, [], server0⟩
  | fuel + 1, i =>
    match poll (queries i) with
    | none =>
      match get_ip_and_port discover ghbn with
      | Except.ok (ip, port) =>
        ⟨StartOutcome.ready ip port, 1, 0,
          [FacadeCall.getApp name, FacadeCall.getApp name], ⟨ip, port⟩⟩
      | Except.error e =>
        ⟨StartOutcome.raised e, 1, 0,
          [FacadeCall.getApp name, FacadeCall.getApp name], server0⟩
    | some _ =>
      let r := startLoop name queries discover ghbn server0 fuel (i + 1)
      ⟨r.outcome, r.polls + 1, r.sleeps + 1, FacadeCall.getApp name :: r.calls, r.server⟩

/-- Embedding of `MarathonSpawner.start` (lines 158-198) from the
`create_app` call on: a falsy result or a raised exception returns `None`
before any polling; an accepted submission enters the polling loop with
`start_timeout` iterations. -/
def start (name : String) (submit : SubmitOutcome)
    (queries : Nat → Except QueryError Snapshot)
    (discover : Except QueryError Snapshot) (ghbn : String → Option String)
    (start_timeout : Nat) (server0 : Server) : StartResult :=
  match submit with
  | SubmitOutcome.accepted =>
    let r := startLoop name queries discover ghbn server0 start_timeout 0
    ⟨r.outcome, r.polls, r.sleeps, FacadeCall.createApp name :: r.calls, r.server⟩
  | SubmitOutcome.isFalse =>
    ⟨StartOutcome.pyNone, 0, 0, [FacadeCall.createApp name], server0⟩
  | SubmitOutcome.exc _ =>
    ⟨StartOutcome.pyNone, 0, 0, [FacadeCall.createApp name], server0⟩

/-- The orchestrator's app store, for the teardown model. -/
structure Orch where
  apps : List String
deriving DecidableEq

/-- The only failure the facade delete operation can raise. -/
inductive DeleteError
  | orchestratorUnreachable
deriving DecidableEq

/-- Modelled from the spec: the facade `delete(identity)` contract (section
4.2) — idempotent, "deleting a nonexistent workload is not an error", fails
only with `OrchestratorUnreachable`.  The Marathon client implementing it is
an external library, not part of `src/`. -/
def delete_app (reachable : Bool) (o : Orch) (name : String) :
    Orch × Except DeleteError Unit :=
  if reachable then
    (⟨o.apps.filter (fun a => a != name)⟩, Except.ok ())
  else
    (o, Except.error DeleteError.orchestratorUnreachable)

/-- Embedding of `MarathonSpawner.stop` (lines 200-203): calls
`delete_app(container_name)` unconditionally and returns `None`
(`Except.ok ()`); a facade error would propagate. -/
def stop (reachable : Bool) (o : Orch) (name : String) :
    Orch × Except DeleteError Unit :=
  delete_app reachable o name

/-! Helper lemmas about `poll` and the polling loop. -/

lemma poll_of_isErr (q : Except QueryError Snapshot) (h : isErr q = true) :
    poll q = some "" := by
  cases q with
  | error e => rfl
  | ok s => simp [isErr] at h

lemma poll_of_isStillStarting (q : Except QueryError Snapshot)
    (h : isStillStarting q = true) : poll q = some "" := by
  cases q with
  | error e => rfl
  | ok s =>
    simp [isStillStarting] at h
    simp [poll, h]

lemma startLoop_first_healthy (name : String)
    (queries : Nat → Except QueryError Snapshot)
    (discover : Except QueryError Snapshot) (ghbn : String → Option String)
    (server0 : Server) (ip : String) (p : Nat)
    (hgip : get_ip_and_port discover ghbn = Except.ok (ip, p)) :
    ∀ (k i fuel : Nat), k < fuel →
      (∀ j, j < k → isErr (queries (i + j)) = true) →
      ∀ s, queries (i + k) = Except.ok s → s.tasks_healthy = 1 →
      startLoop name queries discover ghbn server0 fuel i =
        ⟨StartOutcome.ready ip p, k + 1, k,
          List.replicate k (FacadeCall.getApp name) ++
            [FacadeCall.getApp name, FacadeCall.getApp name], ⟨ip, p⟩⟩ := by
  intro k
  induction k with
  | zero =>
    intro i fuel hk hfail s hq hh
    cases fuel with
    | zero => omega
    | succ f =>
      have hq0 : queries i = Except.ok s := by simpa using hq
      have hp : poll (queries i) = none := by rw [hq0]; simp [poll, hh]
      simp [startLoop, hp, hgip]
  | succ k ih =>
    intro i fuel hk hfail s hq hh
    cases fuel with
    | zero => omega
    | succ f =>
      have h0 : isErr (queries i) = true := by
        have := hfail 0 (Nat.succ_pos k)
        simpa using this
      have hp : poll (queries i) = some "" := poll_of_isErr _ h0
      have hfail' : ∀ j, j < k → isErr (queries (i + 1 + j)) = true := by
        intro j hj
        have hx : i + 1 + j = i + (j + 1) := by omega
        rw [hx]
        exact hfail (j + 1) (by omega)
      have hq' : queries (i + 1 + k) = Except.ok s := by
        have hx : i + 1 + k = i + (k + 1) := by omega
        rw [hx]
        exact hq
      have ih' := ih (i + 1) f (by omega) hfail' s hq' hh
      simp [startLoop, hp, ih', List.replicate_succ]

lemma startLoop_timeout (name : String)
    (queries : Nat → Except QueryError Snapshot)
    (discover : Except QueryError Snapshot) (ghbn : String → Option String)
    (server0 : Server) :
    ∀ (fuel i : Nat),
      (∀ j, j < fuel → isStillStarting (queries (i + j)) = true) →
      startLoop name queries discover ghbn server0 fuel i =
        ⟨StartOutcome.pyNone, fuel, fuel,
          List.replicate fuel (FacadeCall.getApp name), server0⟩ := by
  intro fuel
  induction fuel with
  | zero => intro i h; simp [startLoop]
  | succ f ih =>
    intro i h
    have hp : poll (queries i) = some "" := by
      apply poll_of_isStillStarting
      have := h 0 (Nat.succ_pos f)
      simpa using this
    have ih' := ih (i + 1) (fun j hj => by
      have hx : i + 1 + j = i + (j + 1) := by omega
      rw [hx]
      exact h (j + 1) (by omega))
    simp [startLoop, hp, ih', List.replicate_succ]

lemma startLoop_polls_le (name : String)
    (queries : Nat → Except QueryError Snapshot)
    (discover : Except QueryError Snapshot) (ghbn : String → Option String)
    (server0 : Server) :
    ∀ (fuel i : Nat),
      (startLoop name queries discover ghbn server0 fuel i).polls ≤ fuel := by
  intro fuel
  induction fuel with
  | zero => intro i; simp [startLoop]
  | succ f ih =>
    intro i
    simp only [startLoop]
    cases hp : poll (queries i) with
    | none =>
      cases hg : get_ip_and_port discover ghbn with
      | ok v =>
        obtain ⟨ip, p⟩ := v
        simp
      | error e => simp
    | some s =>
      simpa using Nat.succ_le_succ (ih (i + 1))

lemma startLoop_server (name : String)
    (queries : Nat → Except QueryError Snapshot)
    (discover : Except QueryError Snapshot) (ghbn : String → Option String)
    (server0 : Server) :
    ∀ (fuel i : Nat),
      (startLoop name queries discover ghbn server0 fuel i).server =
        match (startLoop name queries discover ghbn server0 fuel i).outcome with
        | StartOutcome.ready ip p => ⟨ip, p⟩
        | _ => server0 := by
  intro fuel
  induction fuel with
  | zero => intro i; rfl
  | succ f ih =>
    intro i
    simp only [startLoop]
    cases hp : poll (queries i) with
    | none =>
      cases hg : get_ip_and_port discover ghbn with
      | ok v =>
        obtain ⟨ip, p⟩ := v
        rfl
      | error e => rfl
    | some s =>
      exact ih (i + 1)

lemma startLoop_calls_keyed (name : String)
    (queries : Nat → Except QueryError Snapshot)
    (discover : Except QueryError Snapshot) (ghbn : String → Option String)
    (server0 : Server) :
    ∀ (fuel i : Nat),
      ((startLoop name queries discover ghbn server0 fuel i).calls.all
        (fun c => callName c == name)) = true := by
  intro fuel
  induction fuel with
  | zero => intro i; simp [startLoop]
  | succ f ih =>
    intro i
    simp only [startLoop]
    cases hp : poll (queries i) with
    | none =>
      cases hg : get_ip_and_port discover ghbn with
      | ok v =>
        obtain ⟨ip, p⟩ := v
        simp [callName]
      | error e => simp [callName]
    | some s =>
      simpa [callName] using ih (i + 1)

/-! Claim theorems. -/

/-- C1: during a launch attempt, a polling-loop iteration whose status query
fails (`WorkloadNotFound` or `OrchestratorUnreachable`) is treated as
still-starting (the externally observed not-ready signal `""`) and the loop
continues: when the first `k` queries fail and the query of iteration `k`,
inside the `start_timeout` bound, reports exactly one healthy task, the launch
still completes with the `Ready` outcome carrying the resolved endpoint, after
`k + 1` poll iterations. -/
theorem C1_transient_query_failure_still_ready
    (name : String) (queries : Nat → Except QueryError Snapshot)
    (discover : Except QueryError Snapshot) (ghbn : String → Option String)
    (server0 : Server) (k start_timeout : Nat) (s s2 : Snapshot) (t0 : MTask)
    (rest : List Nat) (ip : String) (p : Nat)
    (hk : k < start_timeout)
    (hfail : ∀ j, j < k → isErr (queries j) = true)
    (hq : queries k = Except.ok s) (hh : s.tasks_healthy = 1)
    (hd : discover = Except.ok s2) (htasks : s2.tasks = [t0])
    (hports : t0.ports = p :: rest) (hhost : ghbn t0.host = some ip) :
    (∀ e, poll (Except.error e) = some "") ∧
    (start name SubmitOutcome.accepted queries discover ghbn start_timeout
        server0).outcome = StartOutcome.ready ip p ∧
    (start name SubmitOutcome.accepted queries discover ghbn start_timeout
        server0).polls = k + 1 := by
  have hgip : get_ip_and_port discover ghbn = Except.ok (ip, p) := by
    rw [hd]
    simp [get_ip_and_port, htasks, hhost, hports]
  have hloop := startLoop_first_healthy name queries discover ghbn server0 ip p
    hgip k 0 start_timeout hk
    (fun j hj => by simpa using hfail j hj) s (by simpa using hq) hh
  refine ⟨fun e => rfl, ?_, ?_⟩ <;> simp [start, hloop]

/-- Witness for C1 at concrete inputs: the first three queries fail with
`WorkloadNotFound` and the fourth sees one healthy task. -/
theorem C1_transient_query_failure_still_ready_witness :
    (∀ e, poll (Except.error e) = some "") ∧
    (start "/jupyter/alice" SubmitOutcome.accepted
        (fun i => if i < 3 then Except.error QueryError.workloadNotFound
                  else Except.ok ⟨1, []⟩)
        (Except.ok ⟨1, [⟨"notebook-host", [31004, 31005]⟩]⟩)
        (fun _ => some "10.1.2.3") 30 ⟨"", 0⟩).outcome =
      StartOutcome.ready "10.1.2.3" 31004 ∧
    (start "/jupyter/alice" SubmitOutcome.accepted
        (fun i => if i < 3 then Except.error QueryError.workloadNotFound
                  else Except.ok ⟨1, []⟩)
        (Except.ok ⟨1, [⟨"notebook-host", [31004, 31005]⟩]⟩)
        (fun _ => some "10.1.2.3") 30 ⟨"", 0⟩).polls = 3 + 1 :=
  C1_transient_query_failure_still_ready "/jupyter/alice"
    (fun i => if i < 3 then Except.error QueryError.workloadNotFound
              else Except.ok ⟨1, []⟩)
    (Except.ok ⟨1, [⟨"notebook-host", [31004, 31005]⟩]⟩)
    (fun _ => some "10.1.2.3") ⟨"", 0⟩ 3 30 ⟨1, []⟩
    ⟨1, [⟨"notebook-host", [31004, 31005]⟩]⟩ ⟨"notebook-host", [31004, 31005]⟩
    [31005] "10.1.2.3" 31004 (by omega)
    (by intro j hj; interval_cases j <;> rfl) rfl rfl rfl rfl rfl rfl

/-- C2: after an accepted submission the polling loop executes at most
`start_timeout` iterations; when no iteration observes a healthy workload the
launch performs exactly `start_timeout` poll iterations and one-second sleeps,
terminates with the timed-out outcome (Python `None`), and no exception
escapes (the full observable result, call trace included, is that explicit
value). -/
theorem C2_timeout_bound (name : String)
    (queries : Nat → Except QueryError Snapshot)
    (discover : Except QueryError Snapshot) (ghbn : String → Option String)
    (start_timeout : Nat) (server0 : Server) :
    (start name SubmitOutcome.accepted queries discover ghbn start_timeout
        server0).polls ≤ start_timeout ∧
    ((∀ j, j < start_timeout → isStillStarting (queries j) = true) →
      start name SubmitOutcome.accepted queries discover ghbn start_timeout
          server0 =
        ⟨StartOutcome.pyNone, start_timeout, start_timeout,
          FacadeCall.createApp name ::
            List.replicate start_timeout (FacadeCall.getApp name), server0⟩) := by
  constructor
  · have := startLoop_polls_le name queries discover ghbn server0 start_timeout 0
    simpa [start] using this
  · intro h
    have hloop := startLoop_timeout name queries discover ghbn server0
      start_timeout 0 (fun j hj => by simpa using h j hj)
    simp [start, hloop]

/-- Witness for C2 at concrete inputs: every query reports zero healthy
tasks and the loop of two iterations times out. -/
theorem C2_timeout_bound_witness :
    (start "/jupyter/alice" SubmitOutcome.accepted (fun _ => Except.ok ⟨0, []⟩)
        (Except.ok ⟨0, []⟩) (fun _ => none) 2 ⟨"", 0⟩).polls ≤ 2 ∧
    start "/jupyter/alice" SubmitOutcome.accepted (fun _ => Except.ok ⟨0, []⟩)
        (Except.ok ⟨0, []⟩) (fun _ => none) 2 ⟨"", 0⟩ =
      ⟨StartOutcome.pyNone, 2, 2,
        FacadeCall.createApp "/jupyter/alice" ::
          List.replicate 2 (FacadeCall.getApp "/jupyter/alice"), ⟨"", 0⟩⟩ :=
  ⟨(C2_timeout_bound "/jupyter/alice" (fun _ => Except.ok ⟨0, []⟩)
      (Except.ok ⟨0, []⟩) (fun _ => none) 2 ⟨"", 0⟩).1,
   (C2_timeout_bound "/jupyter/alice" (fun _ => Except.ok ⟨0, []⟩)
      (Except.ok ⟨0, []⟩) (fun _ => none) 2 ⟨"", 0⟩).2 (fun _ _ => rfl)⟩

/-- C3 counterexample: the code does not give the two submission-failure
classes distinct outcomes — a run whose submit raises
`OrchestratorUnreachable` is observationally identical to a run whose submit
returns the falsy signal, and a run whose submit raises
`OrchestratorRejected` is identical as well; all return Python `None`. -/
theorem C3_distinct_outcomes_counterexample :
    start "/jupyter/alice" (SubmitOutcome.exc SubmitError.orchestratorUnreachable)
        (fun _ => Except.error QueryError.workloadNotFound)
        (Except.error QueryError.workloadNotFound) (fun _ => none) 5 ⟨"", 0⟩ =
      start "/jupyter/alice" SubmitOutcome.isFalse
        (fun _ => Except.error QueryError.workloadNotFound)
        (Except.error QueryError.workloadNotFound) (fun _ => none) 5 ⟨"", 0⟩ ∧
    start "/jupyter/alice" (SubmitOutcome.exc SubmitError.orchestratorRejected)
        (fun _ => Except.error QueryError.workloadNotFound)
        (Except.error QueryError.workloadNotFound) (fun _ => none) 5 ⟨"", 0⟩ =
      start "/jupyter/alice" SubmitOutcome.isFalse
        (fun _ => Except.error QueryError.workloadNotFound)
        (Except.error QueryError.workloadNotFound) (fun _ => none) 5 ⟨"", 0⟩ ∧
    (start "/jupyter/alice" SubmitOutcome.isFalse
        (fun _ => Except.error QueryError.workloadNotFound)
        (Except.error QueryError.workloadNotFound) (fun _ => none) 5
        ⟨"", 0⟩).outcome = StartOutcome.pyNone :=
  ⟨rfl, rfl, rfl⟩

/-- C3 (amended): a rejection or falsy acceptance signal and an unreachable
orchestrator or any unclassified submit error all terminate the launch attempt
immediately with the same outcome, Python `None` (the code does not
distinguish `Rejected` from `Unreachable`); in either case the attempt stops
with zero poll iterations and delete is never called (the only facade call is
the `create_app`). -/
theorem C3_submit_failure_uniform_outcome (name : String)
    (queries : Nat → Except QueryError Snapshot)
    (discover : Except QueryError Snapshot) (ghbn : String → Option String)
    (start_timeout : Nat) (server0 : Server) (e : SubmitError) :
    start name SubmitOutcome.isFalse queries discover ghbn start_timeout server0 =
      ⟨StartOutcome.pyNone, 0, 0, [FacadeCall.createApp name], server0⟩ ∧
    start name (SubmitOutcome.exc e) queries discover ghbn start_timeout server0 =
      ⟨StartOutcome.pyNone, 0, 0, [FacadeCall.createApp name], server0⟩ :=
  ⟨rfl, rfl⟩

/-- C4: the externally exposed `poll` returns the live/ready signal (Python
`None`) exactly when the query succeeded with a healthy-task count of 1;
every other count and every query failure yields the not-ready signal `""`;
and for every input the result is one of those two signals, so nothing is
raised past the boundary. -/
theorem C4_poll_signal (q : Except QueryError Snapshot) :
    (poll q = none ↔ ∃ s, q = Except.ok s ∧ s.tasks_healthy = 1) ∧
    (poll q = none ∨ poll q = some "") := by
  constructor
  · cases q with
    | error e => simp [poll]
    | ok s =>
      by_cases h : s.tasks_healthy = 1
      · simp [poll, h]
      · simp [poll, h]
  · cases q with
    | error e => simp [poll]
    | ok s => by_cases h : s.tasks_healthy = 1 <;> simp [poll, h]

/-- C5 counterexample: on a zero-task snapshot `get_ip_and_port` fails with
the bare `AssertionError` of the `assert`, not a typed `AmbiguousTaskCount`,
and on a name-lookup failure it fails with `socket.gaierror`, not a typed
`HostResolutionFailed`. -/
theorem C5_typed_errors_counterexample :
    get_ip_and_port (Except.ok ⟨0, []⟩) (fun _ => some "10.0.0.1") =
      Except.error ResolveFailure.assertionError ∧
    get_ip_and_port (Except.ok ⟨0, []⟩) (fun _ => some "10.0.0.1") ≠
      Except.error ResolveFailure.ambiguousTaskCount ∧
    get_ip_and_port (Except.ok ⟨1, [⟨"h", [8888]⟩]⟩) (fun _ => none) =
      Except.error ResolveFailure.gaierror ∧
    get_ip_and_port (Except.ok ⟨1, [⟨"h", [8888]⟩]⟩) (fun _ => none) ≠
      Except.error ResolveFailure.hostResolutionFailed := by
  refine ⟨rfl, ?_, rfl, ?_⟩ <;>
    · intro hx
      injection hx with hx'
      exact ResolveFailure.noConfusion hx'

/-- C5 (amended): with exactly one task having host `h` and bound ports
`p :: rest`, address resolution returns the endpoint (resolved address of
`h`, `p`) using the first bound port; for zero or two-or-more tasks it fails
with the untyped `AssertionError` of the bare `assert` (not a typed
`AmbiguousTaskCount`), and on name-lookup failure the `socket.gaierror`
propagates (not a typed `HostResolutionFailed`). -/
theorem C5_address_resolution :
    (∀ (s : Snapshot) (t0 : MTask) (p : Nat) (rest : List Nat)
        (ghbn : String → Option String) (ip : String),
        s.tasks = [t0] → t0.ports = p :: rest → ghbn t0.host = some ip →
        get_ip_and_port (Except.ok s) ghbn = Except.ok (ip, p)) ∧
    (∀ (s : Snapshot) (ghbn : String → Option String),
        s.tasks.length ≠ 1 →
        get_ip_and_port (Except.ok s) ghbn =
          Except.error ResolveFailure.assertionError) ∧
    (∀ (s : Snapshot) (t0 : MTask) (ghbn : String → Option String),
        s.tasks = [t0] → ghbn t0.host = none →
        get_ip_and_port (Except.ok s) ghbn =
          Except.error ResolveFailure.gaierror) := by
  refine ⟨?_, ?_, ?_⟩
  · intro s t0 p rest ghbn ip h1 h2 h3
    simp [get_ip_and_port, h1, h2, h3]
  · intro s ghbn h
    obtain ⟨hcount, tasks⟩ := s
    simp only at h
    match tasks, h with
    | [], _ => rfl
    | [a], h => exact absurd rfl h
    | a :: b :: l, _ => rfl
  · intro s t0 ghbn h1 h2
    simp [get_ip_and_port, h1, h2]

/-- Witness for C5 (amended) at concrete snapshots: one task resolves to the
first port, two tasks hit the assertion, a failed lookup raises gaierror. -/
theorem C5_address_resolution_witness :
    get_ip_and_port (Except.ok ⟨1, [⟨"notebook-host", [31000, 31001]⟩]⟩)
        (fun _ => some "10.9.8.7") = Except.ok ("10.9.8.7", 31000) ∧
    get_ip_and_port (Except.ok ⟨2, [⟨"a", [1]⟩, ⟨"b", [2]⟩]⟩)
        (fun _ => some "10.9.8.7") =
      Except.error ResolveFailure.assertionError ∧
    get_ip_and_port (Except.ok ⟨1, [⟨"c", [3]⟩]⟩) (fun _ => none) =
      Except.error ResolveFailure.gaierror :=
  ⟨C5_address_resolution.1 _ _ _ _ _ _ rfl rfl rfl,
   C5_address_resolution.2.1 ⟨2, [⟨"a", [1]⟩, ⟨"b", [2]⟩]⟩ _ (by decide),
   C5_address_resolution.2.2 _ _ _ rfl rfl⟩

/-- C6: teardown is idempotent — `stop` on a nonexistent workload succeeds
without error and leaves the orchestrator state unchanged, every `stop`
returns the no-error result, and a second `stop` returns the same no-error
result and the same state as the first (facade delete modelled from the
spec's contract for the external Marathon client). -/
theorem C6_stop_idempotent (o : Orch) (nm : String) (h : nm ∉ o.apps) :
    stop true o nm = (o, Except.ok ()) ∧
    (stop true o nm).2 = Except.ok () ∧
    stop true (stop true o nm).1 nm = ((stop true o nm).1, Except.ok ()) := by
  obtain ⟨apps⟩ := o
  have h' : nm ∉ apps := h
  have hf : apps.filter (fun a => a != nm) = apps := by
    apply List.filter_eq_self.mpr
    intro a ha
    have hne : a ≠ nm := fun heq => h' (heq ▸ ha)
    simp [hne]
  refine ⟨?_, rfl, ?_⟩
  · simp [stop, delete_app, hf]
  · simp [stop, delete_app, List.filter_filter]

/-- Witness for C6 at a concrete state: the identity is absent, both calls
succeed without error. -/
theorem C6_stop_idempotent_witness :
    stop true ⟨["/jupyter/bob"]⟩ "/jupyter/alice" =
      (⟨["/jupyter/bob"]⟩, Except.ok ()) ∧
    (stop true ⟨["/jupyter/bob"]⟩ "/jupyter/alice").2 = Except.ok () ∧
    stop true (stop true ⟨["/jupyter/bob"]⟩ "/jupyter/alice").1 "/jupyter/alice" =
      ((stop true ⟨["/jupyter/bob"]⟩ "/jupyter/alice").1, Except.ok ()) :=
  C6_stop_idempotent ⟨["/jupyter/bob"]⟩ "/jupyter/alice" (by decide)

/-- C7: the descriptor's memory request is the byte limit divided exactly by
1,048,576 with fractional precision preserved (the two successive divisions by
1024 compose to one exact division); in particular a limit of 1048576 bytes
yields 1 and 1572864 bytes yields 3/2 in orchestrator units. -/
theorem C7_mem_conversion_exact (mem_limit : Rat) :
    mem_request mem_limit = mem_limit / 1048576 ∧
    (build_app "/jupyter/alice" 1 1048576 []).mem = 1 ∧
    (build_app "/jupyter/alice" 1 1572864 []).mem = 3 / 2 := by
  refine ⟨?_, ?_, ?_⟩
  · unfold mem_request
    rw [div_div]
    norm_num
  · norm_num [build_app, mem_request]
  · norm_num [build_app, mem_request]

/-- C8 counterexample: the code builds the app name with a leading slash, so
for the configured namespace `jupyter` and user `alice` the identity is
`/jupyter/alice`, not the claimed `jupyter/alice`. -/
theorem C8_name_format_counterexample :
    containerName "jupyter" "alice" = "/jupyter/alice" ∧
    containerName "jupyter" "alice" ≠ "jupyter" ++ "/" ++ "alice" := by
  constructor
  · rfl
  · decide

/-- C8 (amended): the workload identity is the deterministic name
`/<app_prefix>/<user>` — with a leading slash — and that single name keys
every facade call a launch attempt makes (the `create_app` and every
`get_app`, including address discovery) as well as the teardown delete. -/
theorem C8_identity_sole_key (pre user : String) (submit : SubmitOutcome)
    (queries : Nat → Except QueryError Snapshot)
    (discover : Except QueryError Snapshot) (ghbn : String → Option String)
    (start_timeout : Nat) (server0 : Server) (reachable : Bool) (o : Orch) :
    containerName pre user = "/" ++ pre ++ "/" ++ user ∧
    ((start (containerName pre user) submit queries discover ghbn start_timeout
        server0).calls.all (fun c => callName c == containerName pre user)) =
      true ∧
    stop reachable o (containerName pre user) =
      delete_app reachable o (containerName pre user) := by
  refine ⟨rfl, ?_, rfl⟩
  cases submit with
  | accepted =>
    have hl := startLoop_calls_keyed (containerName pre user) queries discover
      ghbn server0 start_timeout 0
    show ((FacadeCall.createApp (containerName pre user) ::
        (startLoop (containerName pre user) queries discover ghbn server0
          start_timeout 0).calls).all
        (fun c => callName c == containerName pre user)) = true
    rw [List.all_cons, hl]
    simp [callName]
  | isFalse => simp [start, callName]
  | exc e => simp [start, callName]

/-- C9: the code drops the configured placement constraints —
`get_constraints` builds the per-configuration list but has no `return`
statement, so it returns `None`, and the submitted descriptor's constraints
field is `None` even when a constraint is configured. -/
theorem C9_constraints_dropped :
    get_constraints [⟨"hostname", "UNIQUE", none⟩] = none ∧
    built_constraints [⟨"hostname", "UNIQUE", none⟩] =
      [⟨"hostname", "UNIQUE", none⟩] ∧
    (build_app "/jupyter/alice" 1 1048576
        [⟨"hostname", "UNIQUE", none⟩]).constraints = none :=
  ⟨rfl, rfl, rfl⟩

/-- C10: on a `Ready` outcome `start` has written the resolved address and
port into the caller-shared server record; on every other outcome (timeout,
submit failure, escaped resolution exception) the record is exactly the
initial one. -/
theorem C10_server_frame (name : String) (submit : SubmitOutcome)
    (queries : Nat → Except QueryError Snapshot)
    (discover : Except QueryError Snapshot) (ghbn : String → Option String)
    (start_timeout : Nat) (server0 : Server) :
    (start name submit queries discover ghbn start_timeout server0).server =
      match (start name submit queries discover ghbn start_timeout
          server0).outcome with
      | StartOutcome.ready ip p => ⟨ip, p⟩
      | _ => server0 := by
  cases submit with
  | accepted =>
    have := startLoop_server name queries discover ghbn server0 start_timeout 0
    simpa [start] using this
  | isFalse => rfl
  | exc e => rfl

end Marathonspawner
